import Mathlib

/-!
Shallow embedding of the TTS task orchestration core of the
dramaflow-clip-backend repository (NestJS + Prisma + BullMQ).

The embedding models the persistent store (task rows of `sys_tts_task`,
scheme rows of `sys_generate_scheme_manage` with their parsed
`download_content` JSON document) and the BullMQ `ttsQueue` as one explicit
state record, threaded through each operation.  Database writes performed
before an exception are kept (there are no transactions in the source), so
every operation has type `DbState → DbState × Except SvcError α`.

Sources embedded:
- `tts.service.ts` (src/unnamed/part_004): `withLock`, `createTasks`,
  `clearAudioUrls`, `deprecateOldTasks`, `deleteOldTasks`, `createNewTask`,
  `enqueueTask`, `updateTasksExclusive`, `updateSegmentAudio`,
  `getOverallStatus`, `retryFailedTasks`.
- `tts.processor.ts`: `process`, `checkSchemeTasks`, `onFailed`.
- `tts.module.ts`: queue configuration (attempts 3, exponential backoff,
  base delay 1000 ms).
- `tts.controller.ts` (src/unnamed/part_005 and part_006): `create`.

The per-scheme promise-chain lock is modelled by a `lockHeld` field of the
state, set while the locked function runs; every write of a scheme's
`download_content` records in `docWriteLog` whether the lock for that
scheme was held at the moment of the write, so that "mutation happens under
the lock" is an observable property of a run.
-/

namespace Tts

/-- Task status codes of `sys_tts_task.status` (enum `TaskStatus` in
tts.service.ts: PENDING = 0, SUCCESS = 1, FAILED = 2, DEPRECATED = 3). -/
inductive TaskStatus
  | PENDING
  | SUCCESS
  | FAILED
  | DEPRECATED
deriving DecidableEq, Repr

/-- Scheme aggregate state codes of `sys_generate_scheme_manage.tts_task_state`
(enum `SchemeState`: PROCESSING = 1, SUCCESS = 2, FAILED = 3). -/
inductive SchemeState
  | PROCESSING
  | SUCCESS
  | FAILED
deriving DecidableEq, Repr

/-- The Prisma enum `sys_tts_task_segment_key`: 'begin' | 'middle' | 'end'. -/
inductive SegmentKey
  | begin
  | middle
  | end_
deriving DecidableEq, Repr

/-- The `audioUrl` object of one entry of the parsed `download_content`
JSON array (interface `DownloadContent` in types.ts).  A JSON object may
lack any of the three keys, hence `Option`; `none` = key absent. -/
structure AudioUrls where
  beginAudioUrl : Option String := none
  middleAudioUrl : Option String := none
  endAudioUrl : Option String := none
deriving DecidableEq, Repr

/-- The `audioUrl` field of a segment as found in the stored JSON: either a
proper object of audio-url keys, or a malformed value (null, string,
number, or array — anything failing the
`!segment.audioUrl || typeof !== 'object' || Array.isArray` guard of
`updateSegmentAudio`). -/
inductive AudioField
  | obj (m : AudioUrls)
  | malformed (tag : String)
deriving DecidableEq, Repr

/-- One entry of the parsed `download_content` array.  `schemeContent`
stands for all the fields of the entry other than `audioUrl`
(`schemeContent`, `planNumber`, ... — opaque to the orchestrator, which
never reads or writes them). -/
structure Segment where
  audioUrl : AudioField
  schemeContent : String
deriving DecidableEq, Repr

/-- A row of `sys_tts_task`.  Columns not touched by the embedded code are
omitted. -/
structure Task where
  id : Nat
  scheme_id : Nat
  scheme_index : Nat
  segment_key : SegmentKey
  text_content : String
  status : TaskStatus
  retry_count : Nat
  audio_url : Option String := none
  error_log : Option String := none
  voice_name : Option String := none
  tts_model : Option String := none
deriving DecidableEq, Repr

/-- A row of `sys_generate_scheme_manage`; `download_content` is stored as
a JSON string in the database and is modelled parsed (`none` = SQL NULL). -/
structure Scheme where
  id : Nat
  tts_task_state : Option SchemeState := none
  download_content : Option (List Segment) := none
deriving DecidableEq, Repr

/-- The BullMQ job payload (interface `TtsJobData` in types.ts).  `taskId`
is `task.id.toString()` in the source and is modelled as the numeric id. -/
structure JobData where
  taskId : Nat
  text : String
  schemeId : Nat
  schemeIndex : Nat
  segmentKey : SegmentKey
  voiceName : String
  provider : String
deriving DecidableEq, Repr

/-- An entry of the `ttsQueue` as produced by `ttsQueue.add`.  `jobId` is
the optional deduplication id (third argument of `add`); the
`Date.now()` suffix used by `updateTasksExclusive` is not modelled (wall
clock), only the `tts-<id>-` prefix is recorded. -/
structure QueueJob where
  name : String
  data : JobData
  jobId : Option String := none
deriving DecidableEq, Repr

/-- Error taxonomy:: `conflict`/`notFound`/`badRequest` are the NestJS
 `ConflictException`/`NotFoundException`/`BadRequestException`;
`plainError` is a plain `throw new Error(...)` or a Prisma
record-not-found error from `update` on a missing row. -/
inductive SvcError
  | conflict (msg : String)
  | notFound (msg : String)
  | badRequest (msg : String)
  | plainError (msg : String)
deriving DecidableEq, Repr

/-- The whole mutable state: the two tables, the queue, the id sequence of
`sys_tts_task`, which scheme's serializer lock is currently held, and the
instrumentation log of `download_content` writes
(`(schemeId, lock for that scheme held at write time)`). -/
structure DbState where
  tasks : List Task
  schemes : List Scheme
  queue : List QueueJob
  nextTaskId : Nat
  lockHeld : Option Nat := none
  docWriteLog : List (Nat × Bool) := []
deriving DecidableEq, Repr

/-! ## Store primitives -/

/-- Predicate of the `createTasks` / `updateTasksExclusive` conflict query:
a task of the scheme with status PENDING. -/
def pendingOf (schemeId : Nat) (t : Task) : Bool :=
  t.scheme_id == schemeId && decide (t.status = TaskStatus.PENDING)

/-- Predicate of the composite unique key
`scheme_id_scheme_index_segment_key`. -/
def sameKey (schemeId schemeIndex : Nat) (key : SegmentKey) (t : Task) : Bool :=
  t.scheme_id == schemeId && t.scheme_index == schemeIndex &&
    decide (t.segment_key = key)

/-- Predicate of a lookup by primary key `id`. -/
def byId (id : Nat) (t : Task) : Bool :=
  t.id == id

/-- `prisma.sys_generate_scheme_manage.findUnique({ where: { id } })`. -/
def findScheme (s : DbState) (schemeId : Nat) : Option Scheme :=
  s.schemes.find? (fun sch => sch.id == schemeId)

/-- The parsed `download_content` of a scheme, `none` when the scheme row
is absent or the column is NULL. -/
def getDoc (s : DbState) (schemeId : Nat) : Option (List Segment) :=
  (findScheme s schemeId).bind (fun sch => sch.download_content)

/-- Write a scheme's `download_content` column
(`prisma.sys_generate_scheme_manage.update({ data: { download_content } })`),
recording in the instrumentation log whether the scheme's serializer lock
was held at the moment of the write. -/
def writeDownloadContent (s : DbState) (schemeId : Nat) (doc : List Segment) :
    DbState :=
  { s with
    schemes := s.schemes.map (fun sch =>
      if sch.id == schemeId then { sch with download_content := some doc }
      else sch),
    docWriteLog := s.docWriteLog ++ [(schemeId, s.lockHeld == some schemeId)] }

/-- `prisma.sys_generate_scheme_manage.update({ data: { tts_task_state } })`:
Prisma `update` throws when the row is missing. -/
def setSchemeState (s : DbState) (schemeId : Nat) (st : SchemeState) :
    DbState × Except SvcError Unit :=
  if (findScheme s schemeId).isSome then
    ({ s with
        schemes := s.schemes.map (fun sch =>
          if sch.id == schemeId then { sch with tts_task_state := some st }
          else sch) },
      Except.ok ())
  else
    (s, Except.error (SvcError.plainError "record to update not found"))

/-- `prisma.sys_tts_task.update({ where: { id } })` applied to an existing
row: replace the row with the given id. -/
def updateTaskById (s : DbState) (id : Nat) (f : Task → Task) : DbState :=
  { s with tasks := s.tasks.map (fun t => if t.id == id then f t else t) }

/-! ## tts.service.ts — `withLock` -/

/-- `withLock` (tts.service.ts lines 49-59): runs `fn` appended to the
scheme's promise chain, so the scheme's lock is held while `fn` runs.  The
chain carries a `.catch` that only logs: ANY error thrown by `fn` is
swallowed and the awaited promise resolves, so `withLock` itself always
completes without error. -/
def withLock (s : DbState) (schemeId : Nat)
    (fn : DbState → DbState × Except SvcError Unit) :
    DbState × Except SvcError Unit :=
  let s1 := { s with lockHeld := some schemeId }
  match fn s1 with
  | (s2, Except.ok _) => ({ s2 with lockHeld := none }, Except.ok ())
  | (s2, Except.error _) => ({ s2 with lockHeld := none }, Except.ok ())

/-! ## tts.service.ts — `createTasks` and its helpers -/

/-- Reset of one entry performed by `clearAudioUrls`: the whole `audioUrl`
object is replaced by three empty strings. -/
def clearSegmentAudio (seg : Segment) : Segment :=
  { seg with
    audioUrl := AudioField.obj
      { beginAudioUrl := some "", middleAudioUrl := some "",
        endAudioUrl := some "" } }

/-- `clearAudioUrls` (tts.service.ts lines 184-207): read the scheme's
`download_content`; when the row is missing or the column NULL, do nothing;
otherwise overwrite every entry's `audioUrl` with empty strings and persist
the document.  Note: the source calls this directly from `createTasks`,
NOT inside `withLock`. -/
def clearAudioUrls (s : DbState) (schemeId : Nat) : DbState :=
  match findScheme s schemeId with
  | none => s
  | some sch =>
    match sch.download_content with
    | none => s
    | some doc => writeDownloadContent s schemeId (doc.map clearSegmentAudio)

/-- `deprecateOldTasks`: `updateMany` of every task at the composite key
whose status is PENDING, SUCCESS or FAILED to DEPRECATED with an
explanatory `error_log`. -/
def deprecateOldTasks (s : DbState) (schemeId schemeIndex : Nat)
    (key : SegmentKey) : DbState :=
  { s with tasks := s.tasks.map (fun t =>
      if sameKey schemeId schemeIndex key t &&
          decide (t.status = TaskStatus.PENDING ∨
            t.status = TaskStatus.SUCCESS ∨ t.status = TaskStatus.FAILED) then
        { t with status := TaskStatus.DEPRECATED,
                 error_log := some "task superseded, marked deprecated" }
      else t) }

/-- `deleteOldTasks`: `deleteMany` of every task at the composite key. -/
def deleteOldTasks (s : DbState) (schemeId schemeIndex : Nat)
    (key : SegmentKey) : DbState :=
  { s with tasks := s.tasks.filter (fun t =>
      !(sameKey schemeId schemeIndex key t)) }

/-- `createNewTask`: insert a fresh PENDING task with `retry_count` 0; the
store assigns the next surrogate id.  Returns the created row. -/
def createNewTask (s : DbState) (schemeId schemeIndex : Nat)
    (key : SegmentKey) (text : String) : DbState × Task :=
  let t : Task :=
    { id := s.nextTaskId, scheme_id := schemeId, scheme_index := schemeIndex,
      segment_key := key, text_content := text,
      status := TaskStatus.PENDING, retry_count := 0 }
  ({ s with tasks := s.tasks ++ [t], nextTaskId := s.nextTaskId + 1 }, t)

/-- `enqueueTask`: `ttsQueue.add('generateAudio', {...})` with no job
options. -/
def enqueueTask (s : DbState) (task : Task) (text : String)
    (schemeId schemeIndex : Nat) (key : SegmentKey)
    (voiceName provider : String) : DbState :=
  { s with queue := s.queue ++
      [{ name := "generateAudio",
         data := { taskId := task.id, text := text, schemeId := schemeId,
                   schemeIndex := schemeIndex, segmentKey := key,
                   voiceName := voiceName, provider := provider } }] }

/-- One element of the `actualScheme` request array: only its
`translation` object is read, indexed by the segment key
(`schemeItem.translation[segmentKey]`). -/
structure SchemeItem where
  translation : SegmentKey → String

/-- Loop order of segment keys inside `createTasks`. -/
def segmentKeys : List SegmentKey :=
  [SegmentKey.begin, SegmentKey.middle, SegmentKey.end_]

/-- Body of the inner loop of `createTasks` for one
`(schemeIndex, segmentKey)`: deprecate (keep-history mode) or delete
(overwrite mode) the old tasks at the key, create the new PENDING task,
enqueue its job. -/
def createForKey (s : DbState) (schemeId schemeIndex : Nat)
    (key : SegmentKey) (text voiceName provider : String)
    (keepHistory : Bool) : DbState :=
  let s1 :=
    if keepHistory then deprecateOldTasks s schemeId schemeIndex key
    else deleteOldTasks s schemeId schemeIndex key
  let p := createNewTask s1 schemeId schemeIndex key text
  enqueueTask p.1 p.2 text schemeId schemeIndex key voiceName provider

/-- Inner loop of `createTasks` over the three segment keys of one item;
returns the updated state and the number of tasks created. -/
def createForItem (s : DbState) (schemeId schemeIndex : Nat)
    (item : SchemeItem) (voiceName provider : String) (keepHistory : Bool) :
    List SegmentKey → DbState × Nat
  | [] => (s, 0)
  | key :: rest =>
    let s1 := createForKey s schemeId schemeIndex key
      (item.translation key) voiceName provider keepHistory
    let p := createForItem s1 schemeId schemeIndex item
      voiceName provider keepHistory rest
    (p.1, p.2 + 1)

/-- Outer loop of `createTasks` over `actualScheme` with the running
index `i`. -/
def createLoop (s : DbState) (schemeId : Nat) (items : List SchemeItem)
    (i : Nat) (voiceName provider : String) (keepHistory : Bool) :
    DbState × Nat :=
  match items with
  | [] => (s, 0)
  | item :: rest =>
    let p1 := createForItem s schemeId i item voiceName provider
      keepHistory segmentKeys
    let p2 := createLoop p1.1 schemeId rest (i + 1) voiceName provider
      keepHistory
    (p2.1, p1.2 + p2.2)

/-- Result record `{ totalTasks, schemeId }` of `createTasks` and
`updateTasksExclusive`. -/
structure CreateResult where
  totalTasks : Nat
  schemeId : Nat
deriving DecidableEq, Repr

/-- `createTasks` (tts.service.ts lines 70-179).  In the source
`keepHistory` is an optional parameter defaulting to `false`; here it is
explicit and callers that omit it in TypeScript pass `false`.
1. conflict check: any PENDING task of the scheme → `ConflictException`;
2. remove the scheme's waiting/delayed/active jobs from the queue;
3. set the scheme's `tts_task_state` to PROCESSING (throws if row absent);
4. `clearAudioUrls` (NOT under the scheme lock);
5. per item and per segment key: delete-or-deprecate old tasks, create the
   new PENDING task, enqueue its job. -/
def createTasks (s : DbState) (schemeId : Nat) (actualScheme : List SchemeItem)
    (voiceName provider : String) (keepHistory : Bool) :
    DbState × Except SvcError CreateResult :=
  match s.tasks.find? (pendingOf schemeId) with
  | some _ =>
    (s, Except.error (SvcError.conflict
      "scheme already has tasks in progress"))
  | none =>
    let s1 := { s with queue := s.queue.filter (fun j =>
      !(j.data.schemeId == schemeId)) }
    match setSchemeState s1 schemeId SchemeState.PROCESSING with
    | (s2, Except.error e) => (s2, Except.error e)
    | (s2, Except.ok _) =>
      let s3 := clearAudioUrls s2 schemeId
      let p := createLoop s3 schemeId actualScheme 0 voiceName provider
        keepHistory
      (p.1, Except.ok { totalTasks := p.2, schemeId := schemeId })

/-! ## tts.service.ts — `updateTasksExclusive` -/

/-- One element of the `updates` array of the update endpoint. -/
structure TaskUpdate where
  schemeIndex : Nat
  segmentKey : SegmentKey
  newText : String

/-- Loop of `updateTasksExclusive` (step 3): for each update, look the task
up by composite key (`NotFoundException` when absent — note the tasks of
EARLIER iterations have already been updated and enqueued at that point),
replace its text, reset `retry_count`/`status`/`audio_url`, set the scheme
to PROCESSING, and enqueue a job with a `tts-<id>-<Date.now()>`
deduplication id. -/
def updateLoop (s : DbState) (schemeId : Nat) (updates : List TaskUpdate)
    (voiceName ttsModel : String) (count : Nat) :
    DbState × Except SvcError CreateResult :=
  match updates with
  | [] => (s, Except.ok { totalTasks := count, schemeId := schemeId })
  | u :: rest =>
    match s.tasks.find? (sameKey schemeId u.schemeIndex u.segmentKey) with
    | none => (s, Except.error (SvcError.notFound "task does not exist"))
    | some existingTask =>
      let s1 := updateTaskById s existingTask.id (fun t =>
        { t with text_content := u.newText, retry_count := 0,
                 status := TaskStatus.PENDING, audio_url := none })
      match setSchemeState s1 schemeId SchemeState.PROCESSING with
      | (s2, Except.error e) => (s2, Except.error e)
      | (s2, Except.ok _) =>
        let s3 := { s2 with queue := s2.queue ++
          [{ name := "generateAudio",
             data := { taskId := existingTask.id, text := u.newText,
                       schemeId := schemeId, schemeIndex := u.schemeIndex,
                       segmentKey := u.segmentKey, voiceName := voiceName,
                       provider := ttsModel },
             jobId := some ("tts-" ++ toString existingTask.id ++ "-") }] }
        updateLoop s3 schemeId rest voiceName ttsModel (count + 1)

/-- `updateTasksExclusive` (tts.service.ts lines 300-398).
1. conflict check: any PENDING task of the scheme → `ConflictException`;
2. read `voice_name`/`tts_model` from any existing task of the scheme,
   falling back to the empty string;
3. apply the updates one by one (`updateLoop`). -/
def updateTasksExclusive (s : DbState) (schemeId : Nat)
    (updates : List TaskUpdate) : DbState × Except SvcError CreateResult :=
  match s.tasks.find? (pendingOf schemeId) with
  | some _ =>
    (s, Except.error (SvcError.conflict
      "scheme already has tasks in progress"))
  | none =>
    let voiceConfig := s.tasks.find? (fun t => t.scheme_id == schemeId)
    let voiceName := (voiceConfig.bind (fun t => t.voice_name)).getD ""
    let ttsModel := (voiceConfig.bind (fun t => t.tts_model)).getD ""
    updateLoop s schemeId updates voiceName ttsModel 0

/-! ## tts.service.ts — `updateSegmentAudio` -/

/-- `segment.audioUrl[segmentKey + 'AudioUrl'] = audioUrl`: write the one
sub-field named by the segment key. -/
def setAudioKey (m : AudioUrls) (key : SegmentKey) (url : String) :
    AudioUrls :=
  match key with
  | SegmentKey.begin => { m with beginAudioUrl := some url }
  | SegmentKey.middle => { m with middleAudioUrl := some url }
  | SegmentKey.end_ => { m with endAudioUrl := some url }

/-- Read the sub-field named by a segment key (for stating frame
properties). -/
def readAudioKey (m : AudioUrls) (key : SegmentKey) : Option String :=
  match key with
  | SegmentKey.begin => m.beginAudioUrl
  | SegmentKey.middle => m.middleAudioUrl
  | SegmentKey.end_ => m.endAudioUrl

/-- Body of `updateSegmentAudio` run inside `withLock`
(tts.service.ts lines 469-530):
- scheme row absent → `throw new Error(...)`;
- `download_content` NULL → log a warning and return (no-op);
- index out of range → `throw new Error('segment index out of range')`
  (re-thrown by the catch after logging);
- `audioUrl` of the segment missing / not an object / an array → replace it
  with the empty object `\x7b\x7d`; then write the one sub-field named by
  the segment key and persist the whole document. -/
def updateSegmentAudioBody (schemeId schemeIndex : Nat) (key : SegmentKey)
    (audioUrl : String) (s : DbState) : DbState × Except SvcError Unit :=
  match findScheme s schemeId with
  | none => (s, Except.error (SvcError.plainError "scheme does not exist"))
  | some sch =>
    match sch.download_content with
    | none => (s, Except.ok ())
    | some doc =>
      match doc[schemeIndex]? with
      | none =>
        (s, Except.error (SvcError.plainError "segment index out of range"))
      | some seg =>
        let m := match seg.audioUrl with
          | AudioField.obj m => m
          | AudioField.malformed _ => ({} : AudioUrls)
        let seg1 := { seg with audioUrl := AudioField.obj (setAudioKey m key audioUrl) }
        (writeDownloadContent s schemeId (doc.set schemeIndex seg1),
          Except.ok ())

/-- `updateSegmentAudio` (tts.service.ts lines 463-531): the body above run
under the scheme's serializer lock via `withLock`.  Because `withLock`
swallows every error of its function, this call ALWAYS completes without
error to its caller. -/
def updateSegmentAudio (s : DbState) (schemeId schemeIndex : Nat)
    (key : SegmentKey) (audioUrl : String) : DbState × Except SvcError Unit :=
  withLock s schemeId (updateSegmentAudioBody schemeId schemeIndex key audioUrl)

/-! ## tts.service.ts — `getOverallStatus` -/

/-- The `overall` field of the aggregate status response. -/
inductive Overall
  | unfinished
  | failed
  | success
deriving DecidableEq, Repr

/-- The `stats` object of the aggregate status response. -/
structure OverallStats where
  success : Nat
  failed : Nat
  unfinished : Nat
  total : Nat
deriving DecidableEq, Repr

/-- The aggregate status response. -/
structure OverallResult where
  overall : Overall
  stats : OverallStats
deriving DecidableEq, Repr

/-- The counting loop of `getOverallStatus`: a `switch` with cases for
SUCCESS and FAILED and a DEFAULT branch counting everything else —
PENDING and DEPRECATED both land in `unfinishedCount`.  Returns
`(successCount, failedCount, unfinishedCount)`. -/
def countStatuses : List Task → Nat × Nat × Nat
  | [] => (0, 0, 0)
  | t :: rest =>
    let c := countStatuses rest
    match t.status with
    | TaskStatus.SUCCESS => (c.1 + 1, c.2.1, c.2.2)
    | TaskStatus.FAILED => (c.1, c.2.1 + 1, c.2.2)
    | _ => (c.1, c.2.1, c.2.2 + 1)

/-- `getOverallStatus` (tts.service.ts lines 590-655): read the scheme's
tasks (`BadRequestException` when there are none), count the statuses, and
derive `overall`: `unfinished` when `unfinishedCount > 0`, else `failed`
when `failedCount > 0`, else `success`.  Read-only. -/
def getOverallStatus (s : DbState) (schemeId : Nat) :
    Except SvcError OverallResult :=
  let tasks := s.tasks.filter (fun t => t.scheme_id == schemeId)
  if tasks.isEmpty then
    Except.error (SvcError.badRequest "scheme has no task records")
  else
    let c := countStatuses tasks
    let overall :=
      if c.2.2 > 0 then Overall.unfinished
      else if c.2.1 > 0 then Overall.failed
      else Overall.success
    Except.ok { overall := overall,
                stats := { success := c.1, failed := c.2.1,
                           unfinished := c.2.2, total := tasks.length } }

/-! ## tts.service.ts — `retryFailedTasks` -/

/-- One element of the `failedIndexes` array of the retry endpoint. -/
structure RetryKey where
  schemeIndex : Nat
  segmentKey : SegmentKey

/-- The `{ retried }` response of the retry endpoint. -/
structure RetryResult where
  retried : Nat
deriving DecidableEq, Repr

/-- `retryFailedTasks` (tts.service.ts lines 665-730): for each
`(schemeIndex, segmentKey)` an `upsert` on the composite key —
- row exists: status := PENDING, `retry_count` incremented by 1,
  `audio_url` and `error_log` cleared;
- row absent: create a placeholder PENDING task with empty text and
  `retry_count` 1 —
then enqueue a job whose text is the upserted row's `text_content`.
The per-item try/catch only guards store/queue failures, which the model
does not produce, so every item counts as retried. -/
def retryFailedTasks (s : DbState) (schemeId : Nat)
    (failedIndexes : List RetryKey) (voiceName provider : String) :
    DbState × RetryResult :=
  match failedIndexes with
  | [] => (s, { retried := 0 })
  | k :: rest =>
    let upserted : DbState × Task :=
      match s.tasks.find? (sameKey schemeId k.schemeIndex k.segmentKey) with
      | some existing =>
        let updated := { existing with status := TaskStatus.PENDING, retry_count := existing.retry_count + 1, audio_url := none, error_log := none }
        ({ s with tasks := s.tasks.map (fun t =>
            if t.id == existing.id then updated else t) }, updated)
      | none =>
        let t : Task :=
          { id := s.nextTaskId, scheme_id := schemeId,
            scheme_index := k.schemeIndex, segment_key := k.segmentKey,
            text_content := "", status := TaskStatus.PENDING,
            retry_count := 1 }
        ({ s with tasks := s.tasks ++ [t], nextTaskId := s.nextTaskId + 1 }, t)
    let s2 := upserted.1
    let task := upserted.2
    let s3 := { s2 with queue := s2.queue ++
      [{ name := "generateAudio",
         data := { taskId := task.id, text := task.text_content,
                   schemeId := schemeId, schemeIndex := k.schemeIndex,
                   segmentKey := k.segmentKey, voiceName := voiceName,
                   provider := provider } }] }
    let p := retryFailedTasks s3 schemeId rest voiceName provider
    (p.1, { retried := p.2.retried + 1 })

/-! ## tts.processor.ts — the generation worker -/

/-- Return value of a successful `process` call. -/
structure ProcessOk where
  success : Bool
  audioUrl : String
deriving DecidableEq, Repr

/-- The catch block of `process` (tts.processor.ts lines 108-130): read the
task's current `retry_count` (the source guards a NULL column with
`|| 0`; the model's column is non-nullable), increment it, set the task
back to PENDING with an `error_log` recording the new attempt count and
the message, and RE-THROW the original error so BullMQ applies its retry
policy.  When the task row is gone, the `update` itself throws. -/
def processCatch (s : DbState) (taskId : Nat) (errMsg : String) :
    DbState × Except SvcError ProcessOk :=
  match s.tasks.find? (byId taskId) with
  | none => (s, Except.error (SvcError.plainError "record to update not found"))
  | some cur =>
    let n := cur.retry_count + 1
    let s1 := updateTaskById s taskId (fun t =>
      { t with status := TaskStatus.PENDING, retry_count := n, error_log := some ("第 " ++ toString n ++ " 次失败: " ++ errMsg) })
    (s1, Except.error (SvcError.plainError errMsg))

/-- `process` (tts.processor.ts lines 46-131).  The external generation
call (`chatService.generateVoiceFromText`, an out-of-scope collaborator)
is abstracted by its outcome `genResult`: `Except.ok url` = audio
generated and uploaded, yielding its URL; `Except.error msg` = the
provider or upload failed with that message.
1. verify the task row still exists (a missing row throws into the catch);
2. persist `voice_name`/`tts_model` from the job payload onto the task;
3. run the generation; on failure, enter the catch block;
4. on success: status := SUCCESS, `audio_url` set, `retry_count` := 0,
   `error_log` cleared;
5. `updateSegmentAudio` on the shared document (under the scheme lock). -/
def process (s : DbState) (jd : JobData)
    (genResult : Except String String) :
    DbState × Except SvcError ProcessOk :=
  match s.tasks.find? (byId jd.taskId) with
  | none => processCatch s jd.taskId "task id does not exist"
  | some _ =>
    let s1 := updateTaskById s jd.taskId (fun t =>
      { t with voice_name := some jd.voiceName, tts_model := some jd.provider })
    match genResult with
    | Except.error msg => processCatch s1 jd.taskId msg
    | Except.ok audioUrl =>
      let s2 := updateTaskById s1 jd.taskId (fun t =>
        { t with status := TaskStatus.SUCCESS, audio_url := some audioUrl, retry_count := 0, error_log := none })
      let s3 := (updateSegmentAudio s2 jd.schemeId jd.schemeIndex
        jd.segmentKey audioUrl).1
      (s3, Except.ok { success := true, audioUrl := audioUrl })

/-- `checkSchemeTasks` (tts.processor.ts lines 137-182): when no PENDING
task of the scheme remains and at least one task is SUCCESS or FAILED, set
the scheme's state to FAILED if any task is FAILED, else SUCCESS. -/
def checkSchemeTasks (s : DbState) (schemeId : Nat) :
    DbState × Except SvcError Unit :=
  let unfinishedCount := (s.tasks.filter (fun t =>
    t.scheme_id == schemeId && decide (t.status = TaskStatus.PENDING))).length
  if unfinishedCount > 0 then (s, Except.ok ())
  else
    let failedCount := (s.tasks.filter (fun t =>
      t.scheme_id == schemeId && decide (t.status = TaskStatus.FAILED))).length
    let successCount := (s.tasks.filter (fun t =>
      t.scheme_id == schemeId && decide (t.status = TaskStatus.SUCCESS))).length
    if failedCount + successCount == 0 then (s, Except.ok ())
    else
      setSchemeState s schemeId
        (if failedCount > 0 then SchemeState.FAILED else SchemeState.SUCCESS)

/-- `onCompleted` (tts.processor.ts lines 188-192): the queue's `completed`
event handler. -/
def onCompleted (s : DbState) (jd : JobData) : DbState × Except SvcError Unit :=
  checkSchemeTasks s jd.schemeId

/-- `onFailed` (tts.processor.ts lines 198-213): the queue's `failed`
event, fired when a job's attempts are exhausted: mark the task FAILED
with a final-failure `error_log` (keeping `retry_count` as incremented by
the last catch), then recompute the scheme state. -/
def onFailed (s : DbState) (jd : JobData) (errMsg : String) :
    DbState × Except SvcError Unit :=
  match s.tasks.find? (byId jd.taskId) with
  | none => (s, Except.error (SvcError.plainError "record to update not found"))
  | some _ =>
    let s1 := updateTaskById s jd.taskId (fun t =>
      { t with status := TaskStatus.FAILED, error_log := some ("最终失败: " ++ errMsg) })
    checkSchemeTasks s1 jd.schemeId

/-! ## tts.module.ts — queue retry configuration, and the queue's
delivery cycle -/

/-- `attempts: 3` of the `ttsQueue` registration in tts.module.ts: the
maximum number of delivery attempts per job. -/
def ttsQueueAttempts : Nat := 3

/-- `backoff: { type: 'exponential', delay: 1000 }` of tts.module.ts: the
base delay of the exponential backoff, in milliseconds. -/
def ttsQueueBackoffBaseDelayMs : Nat := 1000

/-- Modelled from the spec: the delay BullMQ's exponential backoff applies
after the `attemptsMade`-th failed attempt — the repository only
configures the policy (tts.module.ts), the policy itself lives in the
external BullMQ library.  "Backoff is exponential starting at a fixed base
delay (e.g. 1s), doubling per attempt": delay after attempt n is
`base * 2 ^ (n - 1)`. -/
def backoffDelayMs (attemptsMade : Nat) : Nat :=
  ttsQueueBackoffBaseDelayMs * 2 ^ (attemptsMade - 1)

/-- What the queue decides after one delivery of a job. -/
inductive QueueVerdict
  | completed
  | retryAfter (delayMs : Nat)
  | terminalFailure
deriving DecidableEq, Repr

/-- Modelled from the spec: one delivery cycle of the BullMQ queue for a
job on its `attemptsMade`-th attempt (1-based) — the queue itself is the
external BullMQ library; the repository supplies the worker (`process`,
`onCompleted`, `onFailed`) and the configuration (`attempts: 3`,
exponential backoff, tts.module.ts).  "the error is re-raised to the queue
so its own backoff/attempt-limit policy decides whether to redeliver ...
capped at a maximum attempt count (e.g. 3); after the final attempt the
queue reports the Job as terminally failed":
- the worker returns normally → the `completed` event fires;
- the worker throws and attempts remain → redeliver after the exponential
  backoff delay;
- the worker throws on the final attempt → the `failed` event fires. -/
def deliver (s : DbState) (jd : JobData) (genResult : Except String String)
    (attemptsMade : Nat) : DbState × QueueVerdict :=
  match process s jd genResult with
  | (s1, Except.ok _) =>
    ((onCompleted s1 jd).1, QueueVerdict.completed)
  | (s1, Except.error e) =>
    if attemptsMade < ttsQueueAttempts then
      (s1, QueueVerdict.retryAfter (backoffDelayMs attemptsMade))
    else
      let msg := match e with
        | SvcError.conflict m => m
        | SvcError.notFound m => m
        | SvcError.badRequest m => m
        | SvcError.plainError m => m
      ((onFailed s1 jd msg).1, QueueVerdict.terminalFailure)

/-! ## tts.controller.ts — the HTTP create endpoint -/

/-- `CreateTtsTaskDto` (dto/create-tts-task.dto.ts): the validated request
body of `POST /tts-task/create`.  The DTO declares `schemeId`,
`actualScheme`, `voiceName` (default "Kore") and `provider` — and NO
`keepHistory` field, so a `keepHistory` member of the raw request is not
part of the validated body. -/
structure CreateTtsTaskDto where
  schemeId : Nat
  actualScheme : List SchemeItem
  voiceName : String := "Kore"
  provider : String

/-- `TtsTaskController.create` (tts.controller.ts, both revisions
src/unnamed/part_005 lines 34-50 and part_006 lines 16-29): forwards
exactly `schemeId`, `actualScheme`, `voiceName`, `provider` to
`createTasks`, omitting the fifth `keepHistory` argument, whose
TypeScript default is `false`. -/
def controllerCreate (s : DbState) (body : CreateTtsTaskDto) :
    DbState × Except SvcError CreateResult :=
  createTasks s body.schemeId body.actualScheme body.voiceName body.provider
    false

/-! ## Concrete fixtures used by counterexamples and witnesses -/

/-- The audio-url object of `seg0`: audio previously written for the begin
and middle keys. -/
def urls0 : AudioUrls :=
  { beginAudioUrl := some "b0", middleAudioUrl := some "m0",
    endAudioUrl := none }

/-- A well-formed document entry with audio previously written for the
begin and middle keys. -/
def seg0 : Segment :=
  { audioUrl := AudioField.obj urls0, schemeContent := "content0" }

/-- `seg0` after writing "u3" into its end-key audio-url sub-field. -/
def seg0End : Segment :=
  { seg0 with audioUrl := AudioField.obj (setAudioKey urls0 SegmentKey.end_ "u3") }

/-- A scheme row with id 1 and a one-entry document. -/
def scheme1 : Scheme :=
  { id := 1, tts_task_state := some SchemeState.PROCESSING,
    download_content := some [seg0] }

/-- A DEPRECATED task of scheme 1 (left behind by a keep-history batch). -/
def depTask : Task :=
  { id := 7, scheme_id := 1, scheme_index := 0,
    segment_key := SegmentKey.begin, text_content := "t",
    status := TaskStatus.DEPRECATED, retry_count := 0 }

/-- A SUCCESS task of scheme 1 at `(0, begin)`. -/
def succTask : Task :=
  { id := 3, scheme_id := 1, scheme_index := 0,
    segment_key := SegmentKey.begin, text_content := "old",
    status := TaskStatus.SUCCESS, retry_count := 0,
    audio_url := some "a.wav", voice_name := some "Kore",
    tts_model := some "gemini" }

/-- State whose only task of scheme 1 is DEPRECATED: no PENDING and no
FAILED task. -/
def stateDep : DbState :=
  { tasks := [depTask], schemes := [scheme1], queue := [], nextTaskId := 8 }

/-- State with scheme 1 and a one-entry document, no tasks. -/
def stateDoc : DbState :=
  { tasks := [], schemes := [scheme1], queue := [], nextTaskId := 10 }

/-- State with no scheme rows at all. -/
def stateNoScheme : DbState :=
  { tasks := [], schemes := [], queue := [], nextTaskId := 1 }

/-- State with one SUCCESS task of scheme 1 at `(0, begin)`. -/
def stateSucc : DbState :=
  { tasks := [succTask], schemes := [scheme1], queue := [], nextTaskId := 4 }

/-- Update list whose SECOND element addresses a nonexistent task
`(1, middle)` of scheme 1, while the first addresses the existing
`(0, begin)`. -/
def updatesMissingSecond : List TaskUpdate :=
  [ { schemeIndex := 0, segmentKey := SegmentKey.begin, newText := "new" },
    { schemeIndex := 1, segmentKey := SegmentKey.middle, newText := "x" } ]

/-- A request item whose three segment texts are all "hello". -/
def itemHello : SchemeItem := { translation := fun _ => "hello" }

/-- The queue payload of a job for `succTask`, carrying a new voice
configuration. -/
def jobSucc : JobData :=
  { taskId := 3, text := "old", schemeId := 1, schemeIndex := 0,
    segmentKey := SegmentKey.begin, voiceName := "v2", provider := "p2" }

/-- A PENDING task of scheme 1 at `(0, middle)`. -/
def pendTask : Task :=
  { id := 5, scheme_id := 1, scheme_index := 0,
    segment_key := SegmentKey.middle, text_content := "p",
    status := TaskStatus.PENDING, retry_count := 0 }

/-- State with an in-flight (PENDING) task of scheme 1. -/
def statePend : DbState :=
  { tasks := [pendTask], schemes := [scheme1], queue := [], nextTaskId := 6 }

/-- A terminally FAILED task of scheme 1 at `(1, middle)`. -/
def failTask : Task :=
  { id := 9, scheme_id := 1, scheme_index := 1,
    segment_key := SegmentKey.middle, text_content := "f",
    status := TaskStatus.FAILED, retry_count := 3,
    error_log := some "最终失败: x" }

/-- State of a completed batch of scheme 1: one SUCCESS and one FAILED
task, nothing PENDING and nothing DEPRECATED. -/
def stateDone : DbState :=
  { tasks := [succTask, failTask], schemes := [scheme1], queue := [],
    nextTaskId := 10 }

/-! ## Helper lemmas -/

/-- A conditional in-place update of the elements satisfying `p` commutes
with `find? p` when the update does not change `p`. -/
theorem find?_map_if {α : Type} (l : List α) (p : α → Bool) (f : α → α)
    (hp : ∀ x, p (f x) = p x) :
    (l.map (fun x => if p x then f x else x)).find? p = (l.find? p).map f := by
  induction l with
  | nil => rfl
  | cons a l ih =>
    by_cases h : p a = true
    · rw [List.map_cons, if_pos h, List.find?_cons_of_pos _ ((hp a).trans h),
        List.find?_cons_of_pos _ h, Option.map_some']
    · rw [List.map_cons, if_neg h, List.find?_cons_of_neg _ h,
        List.find?_cons_of_neg _ h, ih]

/-- `findScheme` after a `download_content` write. -/
theorem findScheme_writeDownloadContent (s : DbState) (schemeId : Nat)
    (doc : List Segment) :
    findScheme (writeDownloadContent s schemeId doc) schemeId
      = (findScheme s schemeId).map
          (fun sch => { sch with download_content := some doc }) := by
  unfold findScheme writeDownloadContent
  exact find?_map_if _ _ _ (fun x => rfl)

/-- `findScheme` after a `tts_task_state` write on an existing row. -/
theorem findScheme_setSchemeState (s : DbState) (schemeId : Nat)
    (st : SchemeState) (h : (findScheme s schemeId).isSome) :
    findScheme (setSchemeState s schemeId st).1 schemeId
      = (findScheme s schemeId).map
          (fun sch => { sch with tts_task_state := some st }) := by
  unfold setSchemeState
  rw [if_pos h]
  exact find?_map_if _ _ _ (fun x => rfl)

/-- `updateTaskById` commutes with the lookup by the same id when the
update preserves the id. -/
theorem find?_updateTaskById (s : DbState) (id : Nat) (f : Task → Task)
    (hf : ∀ t, (f t).id = t.id) :
    (updateTaskById s id f).tasks.find? (byId id)
      = (s.tasks.find? (byId id)).map f := by
  unfold updateTaskById byId
  exact find?_map_if _ _ _ (fun x => by simp [hf])

/-- `checkSchemeTasks` only writes the scheme table. -/
theorem checkSchemeTasks_tasks (s : DbState) (schemeId : Nat) :
    (checkSchemeTasks s schemeId).1.tasks = s.tasks := by
  unfold checkSchemeTasks setSchemeState
  dsimp only
  repeat' split
  all_goals rfl

/-- Eta for `DbState` on the `lockHeld` field. -/
theorem lockHeld_eta (s : DbState) (h : s.lockHeld = none) :
    { s with lockHeld := none } = s := by
  cases s
  simp only [DbState.mk.injEq, and_true, true_and]
  exact h.symm

/-! ## Claims -/

/-- Claim C2: for every scheme that has at least one Task in status
Pending, `createTasks` fails with a Conflict error and leaves the whole
store — Task table, scheme table and Job queue — unchanged. -/
theorem createTasks_conflict (s : DbState) (schemeId : Nat)
    (items : List SchemeItem) (voiceName provider : String)
    (keepHistory : Bool)
    (hpend : ∃ t ∈ s.tasks,
      t.scheme_id = schemeId ∧ t.status = TaskStatus.PENDING) :
    ∃ msg, createTasks s schemeId items voiceName provider keepHistory
      = (s, Except.error (SvcError.conflict msg)) := by
  obtain ⟨t, ht, hid, hst⟩ := hpend
  have hsome : (s.tasks.find? (pendingOf schemeId)).isSome := by
    rw [List.find?_isSome]
    exact ⟨t, ht, by simp [pendingOf, hid, hst]⟩
  obtain ⟨t', ht'⟩ := Option.isSome_iff_exists.mp hsome
  refine ⟨"scheme already has tasks in progress", ?_⟩
  unfold createTasks
  rw [ht']

/-- Witness for C2: a concrete scheme with a PENDING task. -/
theorem createTasks_conflict_witness :
    ∃ msg, createTasks statePend 1 [itemHello] "v" "p" false
      = (statePend, Except.error (SvcError.conflict msg)) :=
  createTasks_conflict statePend 1 [itemHello] "v" "p" false
    ⟨pendTask, by decide, by decide, by decide⟩

/-- The `unfinishedCount` of the status-counting loop is zero exactly when
every task's status is SUCCESS or FAILED. -/
theorem countStatuses_un_zero (l : List Task) :
    (countStatuses l).2.2 = 0 ↔
      ∀ t ∈ l, t.status = TaskStatus.SUCCESS ∨ t.status = TaskStatus.FAILED := by
  induction l with
  | nil => simp [countStatuses]
  | cons t rest ih =>
    cases ht : t.status <;> simp [countStatuses, ht, ih]

/-- The `failedCount` of the status-counting loop is positive exactly when
some task's status is FAILED. -/
theorem countStatuses_fa_pos (l : List Task) :
    0 < (countStatuses l).2.1 ↔ ∃ t ∈ l, t.status = TaskStatus.FAILED := by
  induction l with
  | nil => simp [countStatuses]
  | cons t rest ih =>
    cases ht : t.status <;> simp [countStatuses, ht, ih]

/-- Claim C1 (amended): for every scheme with at least one task, all of
whose tasks have status SUCCESS or FAILED (so in particular no PENDING
task — but also no DEPRECATED task, which the source's `default` switch
branch counts as unfinished), `getOverallStatus` returns
`overall = failed` iff at least one task is FAILED, and `overall = success`
otherwise. -/
theorem getOverallStatus_completed (s : DbState) (schemeId : Nat)
    (hne : ∃ t ∈ s.tasks, t.scheme_id = schemeId)
    (hall : ∀ t ∈ s.tasks, t.scheme_id = schemeId →
      t.status = TaskStatus.SUCCESS ∨ t.status = TaskStatus.FAILED) :
    ∃ r, getOverallStatus s schemeId = Except.ok r ∧
      (r.overall = Overall.failed ↔
        ∃ t ∈ s.tasks, t.scheme_id = schemeId ∧
          t.status = TaskStatus.FAILED) ∧
      (r.overall = Overall.success ↔
        ¬ ∃ t ∈ s.tasks, t.scheme_id = schemeId ∧
          t.status = TaskStatus.FAILED) := by
  classical
  obtain ⟨t0, ht0, hid0⟩ := hne
  have hmem : t0 ∈ s.tasks.filter (fun t => t.scheme_id == schemeId) :=
    List.mem_filter.mpr ⟨ht0, by simp [hid0]⟩
  have hnonempty :
      (s.tasks.filter (fun t => t.scheme_id == schemeId)).isEmpty = false := by
    cases hl : s.tasks.filter (fun t => t.scheme_id == schemeId) with
    | nil => rw [hl] at hmem; cases hmem
    | cons a l => rfl
  have hun : (countStatuses
      (s.tasks.filter (fun t => t.scheme_id == schemeId))).2.2 = 0 := by
    rw [countStatuses_un_zero]
    intro t ht
    obtain ⟨htm, htid⟩ := List.mem_filter.mp ht
    exact hall t htm (by simpa using htid)
  have hfa : 0 < (countStatuses
        (s.tasks.filter (fun t => t.scheme_id == schemeId))).2.1 ↔
      ∃ t ∈ s.tasks, t.scheme_id = schemeId ∧ t.status = TaskStatus.FAILED := by
    rw [countStatuses_fa_pos]
    constructor
    · rintro ⟨t, ht, hs⟩
      obtain ⟨htm, htid⟩ := List.mem_filter.mp ht
      exact ⟨t, htm, by simpa using htid, hs⟩
    · rintro ⟨t, ht, hid, hs⟩
      exact ⟨t, List.mem_filter.mpr ⟨ht, by simp [hid]⟩, hs⟩
  unfold getOverallStatus
  dsimp only
  rw [hnonempty, hun, if_neg Bool.false_ne_true, if_neg (lt_irrefl 0)]
  by_cases hf : 0 < (countStatuses
      (s.tasks.filter (fun t => t.scheme_id == schemeId))).2.1
  · rw [if_pos hf]
    refine ⟨_, rfl, ?_, ?_⟩
    · exact ⟨fun _ => hfa.mp hf, fun _ => rfl⟩
    · exact ⟨fun h => Overall.noConfusion h, fun h => absurd (hfa.mp hf) h⟩
  · rw [if_neg hf]
    refine ⟨_, rfl, ?_, ?_⟩
    · exact ⟨fun h => Overall.noConfusion h, fun h => absurd (hfa.mpr h) hf⟩
    · exact ⟨fun _ h => hf (hfa.mpr h), fun _ => rfl⟩

/-- Witness for C1 (amended): a completed batch with one SUCCESS and one
FAILED task. -/
theorem getOverallStatus_completed_witness :
    ∃ r, getOverallStatus stateDone 1 = Except.ok r ∧
      (r.overall = Overall.failed ↔
        ∃ t ∈ stateDone.tasks, t.scheme_id = 1 ∧
          t.status = TaskStatus.FAILED) ∧
      (r.overall = Overall.success ↔
        ¬ ∃ t ∈ stateDone.tasks, t.scheme_id = 1 ∧
          t.status = TaskStatus.FAILED) :=
  getOverallStatus_completed stateDone 1
    ⟨succTask, by decide, by decide⟩ (by decide)

/-- Counterexample for C1 as frozen: in `stateDep` the single task of
scheme 1 is DEPRECATED — no task is PENDING and none is FAILED, so the
claim demands `overall = success` — yet `getOverallStatus` returns
`overall = unfinished`, because the `default` branch of the counting
switch treats DEPRECATED like PENDING. -/
theorem getOverallStatus_deprecated_cex :
    (∀ t ∈ stateDep.tasks, t.status ≠ TaskStatus.PENDING) ∧
    (∀ t ∈ stateDep.tasks, t.status ≠ TaskStatus.FAILED) ∧
    stateDep.tasks ≠ [] ∧
    getOverallStatus stateDep 1 = Except.ok
      { overall := Overall.unfinished,
        stats := { success := 0, failed := 0, unfinished := 1, total := 1 } } ∧
    Overall.unfinished ≠ Overall.success ∧
    Overall.unfinished ≠ Overall.failed :=
  ⟨by decide, by decide, by decide, rfl, by decide, by decide⟩

/-- `withLock` always resolves: whatever the locked function does to the
state sticks, its error (if any) is swallowed, and the lock is released. -/
theorem withLock_result (s : DbState) (schemeId : Nat)
    (fn : DbState → DbState × Except SvcError Unit) :
    withLock s schemeId fn
      = ({ (fn { s with lockHeld := some schemeId }).1 with lockHeld := none },
         Except.ok ()) := by
  unfold withLock
  dsimp only
  rcases hfn : fn { s with lockHeld := some schemeId } with ⟨s2, r⟩
  cases r <;> rfl

/-- The body of `updateSegmentAudio` does not change the state when the
scheme row or its document is absent. -/
theorem updateSegmentAudioBody_absent (s : DbState)
    (schemeId schemeIndex : Nat) (key : SegmentKey) (url : String)
    (h : findScheme s schemeId = none ∨
      ∃ sch, findScheme s schemeId = some sch ∧ sch.download_content = none) :
    (updateSegmentAudioBody schemeId schemeIndex key url s).1 = s := by
  unfold updateSegmentAudioBody
  rcases h with hnone | ⟨sch, hsch, hdc⟩
  · rw [hnone]
  · rw [hsch]
    dsimp only
    rw [hdc]

/-- The body of `updateSegmentAudio` does not change the state when the
segment index is out of range (it throws before the write). -/
theorem updateSegmentAudioBody_range (s : DbState)
    (schemeId schemeIndex : Nat) (key : SegmentKey) (url : String)
    (sch : Scheme) (doc : List Segment)
    (hsch : findScheme s schemeId = some sch)
    (hdc : sch.download_content = some doc)
    (hlen : doc.length ≤ schemeIndex) :
    (updateSegmentAudioBody schemeId schemeIndex key url s).1 = s := by
  unfold updateSegmentAudioBody
  rw [hsch]
  dsimp only
  rw [hdc]
  dsimp only
  rw [List.getElem?_eq_none hlen]

/-- The body of `updateSegmentAudio` on a well-formed segment: one
document write replacing the entry at the index with the same entry whose
`audioUrl` object has the one named sub-field set. -/
theorem updateSegmentAudioBody_write (s : DbState)
    (schemeId schemeIndex : Nat) (key : SegmentKey) (url : String)
    (sch : Scheme) (doc : List Segment) (seg : Segment) (m : AudioUrls)
    (hsch : findScheme s schemeId = some sch)
    (hdc : sch.download_content = some doc)
    (hseg : doc[schemeIndex]? = some seg)
    (hm : seg.audioUrl = AudioField.obj m) :
    updateSegmentAudioBody schemeId schemeIndex key url s
      = (writeDownloadContent s schemeId
          (doc.set schemeIndex
            { seg with audioUrl := AudioField.obj (setAudioKey m key url) }),
         Except.ok ()) := by
  unfold updateSegmentAudioBody
  rw [hsch]
  dsimp only
  rw [hdc]
  dsimp only
  rw [hseg]
  dsimp only
  rw [hm]

/-- Claim C6: when the scheme row is absent from the store, or present but
with a NULL `download_content`, `updateSegmentAudio` is a no-op: it
completes without raising an error to its caller (the scheme-absent branch
throws internally, but `withLock` catches and only logs it) and leaves all
stored state unchanged. -/
theorem updateSegmentAudio_absent_noop (s : DbState)
    (schemeId schemeIndex : Nat) (key : SegmentKey) (url : String)
    (h : findScheme s schemeId = none ∨
      ∃ sch, findScheme s schemeId = some sch ∧ sch.download_content = none)
    (hlock : s.lockHeld = none) :
    updateSegmentAudio s schemeId schemeIndex key url = (s, Except.ok ()) := by
  unfold updateSegmentAudio
  rw [withLock_result,
    updateSegmentAudioBody_absent { s with lockHeld := some schemeId }
      schemeId schemeIndex key url h]
  cases s with
  | mk ta sc qu ni lh lo =>
    dsimp only at hlock ⊢
    rw [hlock]

/-- Witness for C6: a store with no scheme rows at all. -/
theorem updateSegmentAudio_absent_noop_witness :
    updateSegmentAudio stateNoScheme 1 0 SegmentKey.begin "u"
      = (stateNoScheme, Except.ok ()) :=
  updateSegmentAudio_absent_noop stateNoScheme 1 0 SegmentKey.begin "u"
    (Or.inl rfl) rfl

/-- Claim C4 (amended): on an out-of-range `schemeIndex` the stored
document is left unmodified, but the call does NOT surface a NotFound
error: the internal index-out-of-range error is caught and logged by
`withLock`, and `updateSegmentAudio` returns successfully to its caller. -/
theorem updateSegmentAudio_out_of_range_noop (s : DbState)
    (schemeId schemeIndex : Nat) (key : SegmentKey) (url : String)
    (sch : Scheme) (doc : List Segment)
    (hsch : findScheme s schemeId = some sch)
    (hdc : sch.download_content = some doc)
    (hlen : doc.length ≤ schemeIndex)
    (hlock : s.lockHeld = none) :
    updateSegmentAudio s schemeId schemeIndex key url = (s, Except.ok ()) := by
  unfold updateSegmentAudio
  rw [withLock_result,
    updateSegmentAudioBody_range { s with lockHeld := some schemeId }
      schemeId schemeIndex key url sch doc hsch hdc hlen]
  cases s with
  | mk ta sc qu ni lh lo =>
    dsimp only at hlock ⊢
    rw [hlock]

/-- Witness for C4 (amended): index 5 of a one-entry document. -/
theorem updateSegmentAudio_out_of_range_noop_witness :
    updateSegmentAudio stateDoc 1 5 SegmentKey.begin "u"
      = (stateDoc, Except.ok ()) :=
  updateSegmentAudio_out_of_range_noop stateDoc 1 5 SegmentKey.begin "u"
    scheme1 [seg0] rfl rfl (by decide) rfl

/-- Counterexample for C4 as frozen: scheme 1 of `stateDoc` has a
one-entry document, so index 5 is out of range — the claim says the call
fails with NotFound, but it completes with `Except.ok ()` (the error never
reaches the caller), leaving the state unchanged. -/
theorem updateSegmentAudio_out_of_range_cex :
    updateSegmentAudio stateDoc 1 5 SegmentKey.begin "u"
      = (stateDoc, Except.ok ()) ∧
    getDoc (updateSegmentAudio stateDoc 1 5 SegmentKey.begin "u").1 1
      = some [seg0] :=
  ⟨rfl, rfl⟩

/-- A scheme row other than the written one survives a
`download_content` write untouched. -/
theorem mem_schemes_writeDownloadContent (s : DbState) (schemeId : Nat)
    (doc : List Segment) (sch0 : Scheme) (h0 : sch0 ∈ s.schemes)
    (hne : sch0.id ≠ schemeId) :
    sch0 ∈ (writeDownloadContent s schemeId doc).schemes := by
  unfold writeDownloadContent
  dsimp only
  refine List.mem_map.mpr ⟨sch0, h0, ?_⟩
  simp [hne]

/-- Claim C3: on a scheme whose stored document has a well-formed segment
at `schemeIndex`, `updateSegmentAudio` writes only the one audio-url
sub-field named by `segmentKey` of that segment: the call succeeds, the
task table and queue are untouched, the scheme row keeps its other fields,
every other scheme row survives unchanged, every other segment of the
document keeps its value, the written segment keeps all its fields other
than the named sub-field, and the sub-fields of the other two keys keep
their previously written values. -/
theorem updateSegmentAudio_frame (s : DbState) (schemeId schemeIndex : Nat)
    (key : SegmentKey) (url : String) (sch : Scheme) (doc : List Segment)
    (seg : Segment) (m : AudioUrls)
    (hsch : findScheme s schemeId = some sch)
    (hdc : sch.download_content = some doc)
    (hseg : doc[schemeIndex]? = some seg)
    (hm : seg.audioUrl = AudioField.obj m) :
    (updateSegmentAudio s schemeId schemeIndex key url).2 = Except.ok () ∧
    (updateSegmentAudio s schemeId schemeIndex key url).1.tasks = s.tasks ∧
    (updateSegmentAudio s schemeId schemeIndex key url).1.queue = s.queue ∧
    findScheme (updateSegmentAudio s schemeId schemeIndex key url).1 schemeId
      = some { sch with download_content := some (doc.set schemeIndex
          { seg with audioUrl := AudioField.obj (setAudioKey m key url) }) } ∧
    (∀ sch0 ∈ s.schemes, sch0.id ≠ schemeId →
      sch0 ∈ (updateSegmentAudio s schemeId schemeIndex key url).1.schemes) ∧
    (doc.set schemeIndex
        { seg with audioUrl := AudioField.obj (setAudioKey m key url) })[schemeIndex]?
      = some { seg with audioUrl := AudioField.obj (setAudioKey m key url) } ∧
    (∀ j, j ≠ schemeIndex →
      (doc.set schemeIndex
        { seg with audioUrl := AudioField.obj (setAudioKey m key url) })[j]?
        = doc[j]?) ∧
    readAudioKey (setAudioKey m key url) key = some url ∧
    (∀ k2, k2 ≠ key →
      readAudioKey (setAudioKey m key url) k2 = readAudioKey m k2) := by
  have hlt : schemeIndex < doc.length := by
    by_contra hk
    rw [List.getElem?_eq_none (Nat.le_of_not_lt hk)] at hseg
    cases hseg
  have H : updateSegmentAudio s schemeId schemeIndex key url
      = ({ writeDownloadContent { s with lockHeld := some schemeId } schemeId
            (doc.set schemeIndex
              { seg with audioUrl := AudioField.obj (setAudioKey m key url) })
            with lockHeld := none }, Except.ok ()) := by
    unfold updateSegmentAudio
    rw [withLock_result,
      updateSegmentAudioBody_write { s with lockHeld := some schemeId }
        schemeId schemeIndex key url sch doc seg m hsch hdc hseg hm]
  refine ⟨?_, ?_, ?_, ?_, ?_, ?_, ?_, ?_, ?_⟩
  · rw [H]
  · rw [H]
    exact rfl
  · rw [H]
    exact rfl
  · rw [H]
    show findScheme (writeDownloadContent { s with lockHeld := some schemeId }
      schemeId (doc.set schemeIndex
        { seg with audioUrl := AudioField.obj (setAudioKey m key url) })) schemeId
      = _
    rw [findScheme_writeDownloadContent,
      show findScheme { s with lockHeld := some schemeId } schemeId = some sch
        from hsch]
    rfl
  · rw [H]
    exact fun sch0 h0 hne =>
      mem_schemes_writeDownloadContent { s with lockHeld := some schemeId }
        schemeId _ sch0 h0 hne
  · exact List.getElem?_set_self hlt
  · exact fun j hj => List.getElem?_set_ne (Ne.symm hj)
  · cases key <;> rfl
  · intro k2 hk2
    cases key <;> cases k2 <;> first | exact absurd rfl hk2 | rfl

/-- Witness for C3: writing the end-key audio URL of segment 0 of scheme 1
in `stateDoc`, where begin/middle audio URLs were previously written. -/
theorem updateSegmentAudio_frame_witness :
    (updateSegmentAudio stateDoc 1 0 SegmentKey.end_ "u3").2 = Except.ok () ∧
    (updateSegmentAudio stateDoc 1 0 SegmentKey.end_ "u3").1.tasks
      = stateDoc.tasks ∧
    (updateSegmentAudio stateDoc 1 0 SegmentKey.end_ "u3").1.queue
      = stateDoc.queue ∧
    findScheme (updateSegmentAudio stateDoc 1 0 SegmentKey.end_ "u3").1 1
      = some { scheme1 with download_content := some (([seg0]).set 0 seg0End) } ∧
    (∀ sch0 ∈ stateDoc.schemes, sch0.id ≠ 1 →
      sch0 ∈ (updateSegmentAudio stateDoc 1 0 SegmentKey.end_ "u3").1.schemes) ∧
    (([seg0]).set 0 seg0End)[0]? = some seg0End ∧
    (∀ j, j ≠ 0 →
      (([seg0]).set 0 seg0End)[j]? = ([seg0] : List Segment)[j]?) ∧
    readAudioKey (setAudioKey urls0 SegmentKey.end_ "u3") SegmentKey.end_
      = some "u3" ∧
    (∀ k2, k2 ≠ SegmentKey.end_ →
      readAudioKey (setAudioKey urls0 SegmentKey.end_ "u3") k2
        = readAudioKey urls0 k2) :=
  updateSegmentAudio_frame stateDoc 1 0 SegmentKey.end_ "u3" scheme1 [seg0]
    seg0 urls0 rfl rfl rfl rfl

/-- Counterexample for C5 as frozen: in `stateSucc` the update list
`updatesMissingSecond` addresses the existing task `(0, begin)` first and
the nonexistent `(1, middle)` second.  The call does fail with NotFound —
but the first task has already been mutated (text replaced, status reset
to Pending, audio URL cleared) and its Job enqueued, so Task rows ARE
mutated. -/
theorem updateTasksExclusive_partial_cex :
    (updateTasksExclusive stateSucc 1 updatesMissingSecond).2
      = Except.error (SvcError.notFound "task does not exist") ∧
    (updateTasksExclusive stateSucc 1 updatesMissingSecond).1.tasks
      = [{ succTask with text_content := "new", status := TaskStatus.PENDING, audio_url := none }] ∧
    (updateTasksExclusive stateSucc 1 updatesMissingSecond).1.tasks
      ≠ stateSucc.tasks ∧
    (updateTasksExclusive stateSucc 1 updatesMissingSecond).1.queue
      ≠ stateSucc.queue :=
  ⟨rfl, rfl, by decide, by decide⟩

/-- Claim C5 (amended): when the FIRST element of the update list
addresses a `(schemeIndex, segmentKey)` with no Task row (and no task of
the scheme is Pending), `updateTasksExclusive` fails with NotFound and no
Task row is mutated and no Job enqueued; but when the nonexistent key
appears later in the list, the updates preceding it have already been
applied and enqueued when the call fails. -/
theorem updateTasksExclusive_notFound_first (s : DbState) (schemeId : Nat)
    (u : TaskUpdate) (rest : List TaskUpdate)
    (hnp : ∀ t ∈ s.tasks,
      ¬(t.scheme_id = schemeId ∧ t.status = TaskStatus.PENDING))
    (hmiss : ∀ t ∈ s.tasks,
      ¬(t.scheme_id = schemeId ∧ t.scheme_index = u.schemeIndex ∧
        t.segment_key = u.segmentKey)) :
    updateTasksExclusive s schemeId (u :: rest)
      = (s, Except.error (SvcError.notFound "task does not exist")) := by
  have h1 : s.tasks.find? (pendingOf schemeId) = none := by
    rw [List.find?_eq_none]
    intro t ht
    simp only [pendingOf, Bool.and_eq_true, beq_iff_eq, decide_eq_true_eq]
    intro h
    exact hnp t ht ⟨h.1, h.2⟩
  have h2 : s.tasks.find? (sameKey schemeId u.schemeIndex u.segmentKey)
      = none := by
    rw [List.find?_eq_none]
    intro t ht
    simp only [sameKey, Bool.and_eq_true, beq_iff_eq, decide_eq_true_eq]
    intro h
    exact hmiss t ht ⟨h.1.1, h.1.2, h.2⟩
  unfold updateTasksExclusive
  rw [h1]
  dsimp only
  unfold updateLoop
  rw [h2]

/-- Witness for C5 (amended): the nonexistent `(1, middle)` as the first
and only element. -/
theorem updateTasksExclusive_notFound_first_witness :
    updateTasksExclusive stateSucc 1
      [{ schemeIndex := 1, segmentKey := SegmentKey.middle, newText := "x" }]
      = (stateSucc, Except.error (SvcError.notFound "task does not exist")) :=
  updateTasksExclusive_notFound_first stateSucc 1
    { schemeIndex := 1, segmentKey := SegmentKey.middle, newText := "x" } []
    (by decide) (by decide)

/-- `clearAudioUrls` on a scheme with a document is exactly one
`download_content` write of the reset document. -/
theorem clearAudioUrls_eq (s : DbState) (schemeId : Nat) (sch : Scheme)
    (doc : List Segment) (hsch : findScheme s schemeId = some sch)
    (hdc : sch.download_content = some doc) :
    clearAudioUrls s schemeId
      = writeDownloadContent s schemeId (doc.map clearSegmentAudio) := by
  unfold clearAudioUrls
  rw [hsch]
  dsimp only
  rw [hdc]

/-- `createForKey` writes only the task table, the queue and the id
sequence: scheme rows, the document-write log and the lock are
untouched. -/
theorem createForKey_frame (s : DbState) (schemeId schemeIndex : Nat)
    (key : SegmentKey) (text voiceName provider : String)
    (keepHistory : Bool) :
    (createForKey s schemeId schemeIndex key text voiceName provider
        keepHistory).schemes = s.schemes ∧
    (createForKey s schemeId schemeIndex key text voiceName provider
        keepHistory).docWriteLog = s.docWriteLog ∧
    (createForKey s schemeId schemeIndex key text voiceName provider
        keepHistory).lockHeld = s.lockHeld := by
  cases keepHistory <;>
    simp [createForKey, deprecateOldTasks, deleteOldTasks, createNewTask,
      enqueueTask]

/-- The inner loop of `createTasks` preserves scheme rows, the
document-write log and the lock. -/
theorem createForItem_frame (schemeId schemeIndex : Nat) (item : SchemeItem)
    (voiceName provider : String) (keepHistory : Bool) :
    ∀ (keys : List SegmentKey) (s : DbState),
      (createForItem s schemeId schemeIndex item voiceName provider
          keepHistory keys).1.schemes = s.schemes ∧
      (createForItem s schemeId schemeIndex item voiceName provider
          keepHistory keys).1.docWriteLog = s.docWriteLog ∧
      (createForItem s schemeId schemeIndex item voiceName provider
          keepHistory keys).1.lockHeld = s.lockHeld := by
  intro keys
  induction keys with
  | nil => intro s; exact ⟨rfl, rfl, rfl⟩
  | cons key rest ih =>
    intro s
    have hk := createForKey_frame s schemeId schemeIndex key
      (item.translation key) voiceName provider keepHistory
    have hr := ih (createForKey s schemeId schemeIndex key
      (item.translation key) voiceName provider keepHistory)
    unfold createForItem
    dsimp only
    exact ⟨hr.1.trans hk.1, hr.2.1.trans hk.2.1, hr.2.2.trans hk.2.2⟩

/-- The outer loop of `createTasks` preserves the scheme rows. -/
theorem createLoop_schemes (schemeId : Nat) (voiceName provider : String)
    (keepHistory : Bool) (items : List SchemeItem) : ∀ (i : Nat) (s : DbState),
    (createLoop s schemeId items i voiceName provider keepHistory).1.schemes
      = s.schemes := by
  induction items with
  | nil => intro i s; rfl
  | cons item rest ih =>
    intro i s
    unfold createLoop
    dsimp only
    exact (ih (i + 1) _).trans
      (createForItem_frame schemeId i item voiceName provider keepHistory
        segmentKeys s).1

/-- The outer loop of `createTasks` preserves the document-write log. -/
theorem createLoop_docWriteLog (schemeId : Nat) (voiceName provider : String)
    (keepHistory : Bool) (items : List SchemeItem) : ∀ (i : Nat) (s : DbState),
    (createLoop s schemeId items i voiceName provider
        keepHistory).1.docWriteLog = s.docWriteLog := by
  induction items with
  | nil => intro i s; rfl
  | cons item rest ih =>
    intro i s
    unfold createLoop
    dsimp only
    exact (ih (i + 1) _).trans
      (createForItem_frame schemeId i item voiceName provider keepHistory
        segmentKeys s).2.1

/-- Marking a scheme PROCESSING commutes with the lookup by id. -/
theorem findScheme_mapProcessing (l : List Scheme) (schemeId : Nat)
    (sch : Scheme)
    (h : l.find? (fun sch0 => sch0.id == schemeId) = some sch) :
    (l.map (fun sch0 => if sch0.id == schemeId then
        { sch0 with tts_task_state := some SchemeState.PROCESSING }
      else sch0)).find? (fun sch0 => sch0.id == schemeId)
      = some { sch with tts_task_state := some SchemeState.PROCESSING } := by
  rw [find?_map_if l (fun sch0 => sch0.id == schemeId)
    (fun sch0 => { sch0 with tts_task_state := some SchemeState.PROCESSING })
    (fun x => rfl), h]
  rfl

/-- `findScheme` only depends on the scheme table. -/
theorem findScheme_congr (schemeId : Nat) (s1 s2 : DbState)
    (h : s1.schemes = s2.schemes) :
    findScheme s1 schemeId = findScheme s2 schemeId := by
  unfold findScheme
  rw [h]

/-- Claim C7 (amended): a successful `createTasks` call resets every
segment's audio-url sub-fields (begin/middle/end) of the scheme's document
to the empty string — but this reset is performed by `clearAudioUrls`
directly on the store, NOT while holding the scheme's per-key
serialization lock: the run's only document write is recorded with the
lock not held. -/
theorem createTasks_clears_audio (s : DbState) (schemeId : Nat)
    (items : List SchemeItem) (voiceName provider : String)
    (keepHistory : Bool) (sch : Scheme) (doc : List Segment)
    (hnp : s.tasks.find? (pendingOf schemeId) = none)
    (hsch : findScheme s schemeId = some sch)
    (hdc : sch.download_content = some doc)
    (hlock : s.lockHeld = none)
    (hlog : s.docWriteLog = []) :
    ∃ n s2, createTasks s schemeId items voiceName provider keepHistory
        = (s2, Except.ok { totalTasks := n, schemeId := schemeId }) ∧
      getDoc s2 schemeId = some (doc.map clearSegmentAudio) ∧
      s2.docWriteLog = [(schemeId, false)] := by
  have hsqf : findScheme
      { s with queue := s.queue.filter (fun j => !(j.data.schemeId == schemeId)) }
      schemeId = some sch := hsch
  have hss : setSchemeState
      { s with queue := s.queue.filter (fun j => !(j.data.schemeId == schemeId)) }
      schemeId SchemeState.PROCESSING
      = ({ s with
            queue := s.queue.filter (fun j => !(j.data.schemeId == schemeId)),
            schemes := s.schemes.map (fun sch0 =>
              if sch0.id == schemeId then { sch0 with tts_task_state := some SchemeState.PROCESSING }
              else sch0) },
          Except.ok ()) := by
    unfold setSchemeState
    rw [if_pos (show ((findScheme { s with
        queue := s.queue.filter (fun j => !(j.data.schemeId == schemeId)) }
        schemeId).isSome = true) from by rw [hsqf]; rfl)]
  have hfind2 : findScheme
      { s with
        queue := s.queue.filter (fun j => !(j.data.schemeId == schemeId)),
        schemes := s.schemes.map (fun sch0 =>
          if sch0.id == schemeId then { sch0 with tts_task_state := some SchemeState.PROCESSING }
          else sch0) } schemeId
      = some { sch with tts_task_state := some SchemeState.PROCESSING } :=
    findScheme_mapProcessing s.schemes schemeId sch hsch
  have hcl := clearAudioUrls_eq
    { s with
      queue := s.queue.filter (fun j => !(j.data.schemeId == schemeId)),
      schemes := s.schemes.map (fun sch0 =>
        if sch0.id == schemeId then { sch0 with tts_task_state := some SchemeState.PROCESSING }
        else sch0) } schemeId
    { sch with tts_task_state := some SchemeState.PROCESSING } doc hfind2 hdc
  unfold createTasks
  rw [hnp]
  dsimp only
  rw [hss]
  dsimp only
  rw [hcl]
  refine ⟨_, _, rfl, ?_, ?_⟩
  · unfold getDoc
    rw [findScheme_congr schemeId _ _
      (createLoop_schemes schemeId voiceName provider keepHistory items 0 _),
      findScheme_writeDownloadContent, hfind2]
    rfl
  · rw [createLoop_docWriteLog]
    show s.docWriteLog ++ [(schemeId, s.lockHeld == some schemeId)] = _
    rw [hlog, hlock]
    rfl

/-- Witness for C7 (amended): the concrete batch on `stateDoc`. -/
theorem createTasks_clears_audio_witness :
    ∃ n s2, createTasks stateDoc 1 [itemHello] "v" "p" false
        = (s2, Except.ok { totalTasks := n, schemeId := 1 }) ∧
      getDoc s2 1 = some (([seg0]).map clearSegmentAudio) ∧
      s2.docWriteLog = [(1, false)] :=
  createTasks_clears_audio stateDoc 1 [itemHello] "v" "p" false scheme1 [seg0]
    rfl rfl rfl rfl rfl

/-- Counterexample for C7 as frozen: the successful concrete run on
`stateDoc` does reset the audio-url sub-fields, but its single document
write is recorded with the scheme lock NOT held (`(1, false)`), refuting
"performed while holding that scheme's per-key serialization lock". -/
theorem createTasks_clear_without_lock_cex :
    (createTasks stateDoc 1 [itemHello] "v" "p" false).2
      = Except.ok { totalTasks := 3, schemeId := 1 } ∧
    getDoc (createTasks stateDoc 1 [itemHello] "v" "p" false).1 1
      = some [clearSegmentAudio seg0] ∧
    (createTasks stateDoc 1 [itemHello] "v" "p" false).1.docWriteLog
      = [(1, false)] :=
  ⟨rfl, rfl, rfl⟩

/-- Claim C8: `retryFailedTasks` on a single `(schemeIndex, segmentKey)`.
If a task with that composite key exists — whatever its status, including
SUCCESS — it is reset to PENDING with `retry_count` incremented by exactly
1 and `audio_url`/`error_log` cleared, no other task row is modified, and
one job is enqueued; if no such task exists, a placeholder PENDING task
with empty text is created and a job is enqueued as well. -/
theorem retryFailedTasks_upsert (s : DbState) (schemeId : Nat) (k : RetryKey)
    (voiceName provider : String) :
    (∀ ex, s.tasks.find? (sameKey schemeId k.schemeIndex k.segmentKey)
        = some ex →
      retryFailedTasks s schemeId [k] voiceName provider
        = ({ s with
              tasks := s.tasks.map (fun t => if t.id == ex.id then { ex with status := TaskStatus.PENDING, retry_count := ex.retry_count + 1, audio_url := none, error_log := none } else t),
              queue := s.queue ++ [{ name := "generateAudio", data := { taskId := ex.id, text := ex.text_content, schemeId := schemeId, schemeIndex := k.schemeIndex, segmentKey := k.segmentKey, voiceName := voiceName, provider := provider } }] },
            { retried := 1 }) ∧
      (∀ t ∈ s.tasks, t.id ≠ ex.id →
        t ∈ (retryFailedTasks s schemeId [k] voiceName provider).1.tasks)) ∧
    (s.tasks.find? (sameKey schemeId k.schemeIndex k.segmentKey) = none →
      retryFailedTasks s schemeId [k] voiceName provider
        = ({ s with
              tasks := s.tasks ++ [{ id := s.nextTaskId, scheme_id := schemeId, scheme_index := k.schemeIndex, segment_key := k.segmentKey, text_content := "", status := TaskStatus.PENDING, retry_count := 1 }],
              nextTaskId := s.nextTaskId + 1,
              queue := s.queue ++ [{ name := "generateAudio", data := { taskId := s.nextTaskId, text := "", schemeId := schemeId, schemeIndex := k.schemeIndex, segmentKey := k.segmentKey, voiceName := voiceName, provider := provider } }] },
            { retried := 1 })) := by
  constructor
  · intro ex hex
    have Heq : retryFailedTasks s schemeId [k] voiceName provider
        = ({ s with
              tasks := s.tasks.map (fun t => if t.id == ex.id then { ex with status := TaskStatus.PENDING, retry_count := ex.retry_count + 1, audio_url := none, error_log := none } else t),
              queue := s.queue ++ [{ name := "generateAudio", data := { taskId := ex.id, text := ex.text_content, schemeId := schemeId, schemeIndex := k.schemeIndex, segmentKey := k.segmentKey, voiceName := voiceName, provider := provider } }] },
            { retried := 1 }) := by
      unfold retryFailedTasks
      rw [hex]
      rfl
    refine ⟨Heq, ?_⟩
    intro t ht hne
    rw [Heq]
    refine List.mem_map.mpr ⟨t, ht, ?_⟩
    simp [hne]
  · intro hex
    unfold retryFailedTasks
    rw [hex]
    rfl

/-- Witness for C8: both upsert branches on `stateSucc` — retrying the
existing SUCCESS task `(0, begin)` and the absent key `(2, end)`. -/
theorem retryFailedTasks_upsert_witness :
    retryFailedTasks stateSucc 1
        [{ schemeIndex := 0, segmentKey := SegmentKey.begin }] "v" "p"
      = ({ stateSucc with
            tasks := [{ succTask with status := TaskStatus.PENDING, retry_count := 1, audio_url := none, error_log := none }],
            queue := [{ name := "generateAudio", data := { taskId := 3, text := "old", schemeId := 1, schemeIndex := 0, segmentKey := SegmentKey.begin, voiceName := "v", provider := "p" } }] },
          { retried := 1 }) ∧
    retryFailedTasks stateSucc 1
        [{ schemeIndex := 2, segmentKey := SegmentKey.end_ }] "v" "p"
      = ({ stateSucc with
            tasks := stateSucc.tasks ++ [{ id := 4, scheme_id := 1, scheme_index := 2, segment_key := SegmentKey.end_, text_content := "", status := TaskStatus.PENDING, retry_count := 1 }],
            nextTaskId := 5,
            queue := [{ name := "generateAudio", data := { taskId := 4, text := "", schemeId := 1, schemeIndex := 2, segmentKey := SegmentKey.end_, voiceName := "v", provider := "p" } }] },
          { retried := 1 }) :=
  ⟨((retryFailedTasks_upsert stateSucc 1
      { schemeIndex := 0, segmentKey := SegmentKey.begin } "v" "p").1
      succTask rfl).1,
   (retryFailedTasks_upsert stateSucc 1
      { schemeIndex := 2, segmentKey := SegmentKey.end_ } "v" "p").2 rfl⟩

/-- `clearAudioUrls` never touches the task table. -/
theorem clearAudioUrls_tasks (s : DbState) (schemeId : Nat) :
    (clearAudioUrls s schemeId).tasks = s.tasks := by
  unfold clearAudioUrls writeDownloadContent
  repeat' split
  all_goals rfl

/-- `setSchemeState` never touches the task table. -/
theorem setSchemeState_tasks (s : DbState) (schemeId : Nat)
    (st : SchemeState) :
    (setSchemeState s schemeId st).1.tasks = s.tasks := by
  unfold setSchemeState
  split <;> rfl

/-- Overwrite mode (`keepHistory = false`): `createForKey` deletes the old
tasks at the key and appends one PENDING task, so any DEPRECATED task of
the result already existed. -/
theorem createForKey_deprecated (s : DbState) (schemeId schemeIndex : Nat)
    (key : SegmentKey) (text voiceName provider : String) (t : Task)
    (ht : t ∈ (createForKey s schemeId schemeIndex key text voiceName
      provider false).tasks)
    (hd : t.status = TaskStatus.DEPRECATED) : t ∈ s.tasks := by
  unfold createForKey deleteOldTasks createNewTask enqueueTask at ht
  dsimp only at ht
  rw [List.mem_append] at ht
  rcases ht with h | h
  · exact (List.mem_filter.mp h).1
  · rw [List.mem_singleton] at h
    subst h
    exact TaskStatus.noConfusion hd

/-- Overwrite mode: the inner loop of `createTasks` introduces no
DEPRECATED task. -/
theorem createForItem_deprecated (schemeId schemeIndex : Nat)
    (item : SchemeItem) (voiceName provider : String) :
    ∀ (keys : List SegmentKey) (s : DbState) (t : Task),
      t ∈ (createForItem s schemeId schemeIndex item voiceName provider
        false keys).1.tasks →
      t.status = TaskStatus.DEPRECATED → t ∈ s.tasks := by
  intro keys
  induction keys with
  | nil => intro s t ht _; exact ht
  | cons key rest ih =>
    intro s t ht hd
    unfold createForItem at ht
    dsimp only at ht
    exact createForKey_deprecated s schemeId schemeIndex key
      (item.translation key) voiceName provider t (ih _ t ht hd) hd

/-- Overwrite mode: the outer loop of `createTasks` introduces no
DEPRECATED task. -/
theorem createLoop_deprecated (schemeId : Nat) (voiceName provider : String) :
    ∀ (items : List SchemeItem) (i : Nat) (s : DbState) (t : Task),
      t ∈ (createLoop s schemeId items i voiceName provider false).1.tasks →
      t.status = TaskStatus.DEPRECATED → t ∈ s.tasks := by
  intro items
  induction items with
  | nil => intro i s t ht _; exact ht
  | cons item rest ih =>
    intro i s t ht hd
    unfold createLoop at ht
    dsimp only at ht
    exact createForItem_deprecated schemeId i item voiceName provider
      segmentKeys s t (ih (i + 1) _ t ht hd) hd

/-- Claim C10: the HTTP create endpoint always calls `createTasks` with
the default `keepHistory = false` (the DTO has no `keepHistory` field and
the controller passes only four arguments), so every API-created batch
runs in overwrite mode: existing tasks at each key are deleted, and no
task is ever marked DEPRECATED by the call — any DEPRECATED task of the
resulting store already existed before. -/
theorem controllerCreate_overwrite (s : DbState) (body : CreateTtsTaskDto) :
    controllerCreate s body
      = createTasks s body.schemeId body.actualScheme body.voiceName
          body.provider false ∧
    ∀ t ∈ (controllerCreate s body).1.tasks,
      t.status = TaskStatus.DEPRECATED → t ∈ s.tasks := by
  refine ⟨rfl, ?_⟩
  intro t ht hd
  unfold controllerCreate createTasks at ht
  cases hfind : s.tasks.find? (pendingOf body.schemeId) with
  | some t0 =>
    rw [hfind] at ht
    exact ht
  | none =>
    rw [hfind] at ht
    dsimp only at ht
    rcases hset : setSchemeState
        { s with queue := s.queue.filter (fun j =>
            !(j.data.schemeId == body.schemeId)) }
        body.schemeId SchemeState.PROCESSING with ⟨s2, r⟩
    rw [hset] at ht
    have hs2 : s2.tasks = s.tasks := by
      have := setSchemeState_tasks
        { s with queue := s.queue.filter (fun j =>
            !(j.data.schemeId == body.schemeId)) }
        body.schemeId SchemeState.PROCESSING
      rw [hset] at this
      exact this
    cases r with
    | error e =>
      rw [← hs2]
      exact ht
    | ok a =>
      dsimp only at ht
      have hmem := createLoop_deprecated body.schemeId body.voiceName
        body.provider body.actualScheme 0 (clearAudioUrls s2 body.schemeId)
        t ht hd
      rw [clearAudioUrls_tasks, hs2] at hmem
      exact hmem

/-- Witness for C10: `stateDep` holds a DEPRECATED task of scheme 1; the
API create call for scheme 2 keeps it, and the call equals the
keepHistory-false `createTasks`. -/
theorem controllerCreate_overwrite_witness :
    controllerCreate stateDep
        { schemeId := 2, actualScheme := [], provider := "p" }
      = createTasks stateDep 2 [] "Kore" "p" false ∧
    depTask ∈ (controllerCreate stateDep
        { schemeId := 2, actualScheme := [], provider := "p" }).1.tasks ∧
    depTask.status = TaskStatus.DEPRECATED ∧
    depTask ∈ stateDep.tasks :=
  ⟨(controllerCreate_overwrite stateDep
      { schemeId := 2, actualScheme := [], provider := "p" }).1,
   by decide,
   by decide,
   (controllerCreate_overwrite stateDep
      { schemeId := 2, actualScheme := [], provider := "p" }).2 depTask
      (by decide) (by decide)⟩

/-- Claim C9: on a failed delivery the worker leaves the task PENDING with
`retry_count` incremented by exactly 1 and an `error_log` recording the
new attempt count and the error message, and re-raises the error to the
queue, whose configured policy (tts.module.ts) is exponential backoff with
base delay 1000 ms capped at `attempts = 3`; a non-final attempt is
redelivered after `1000 * 2 ^ (attemptsMade - 1)` ms, and only when the
queue signals terminal failure (the third failed attempt) is the task set
to FAILED with a final-failure `error_log`.  The queue's delivery cycle
itself (`deliver`) is modelled from the spec, BullMQ being external. -/
theorem deliver_failure_policy (s : DbState) (jd : JobData) (msg : String)
    (k : Nat) (t0 : Task)
    (hfind : s.tasks.find? (byId jd.taskId) = some t0) :
    ttsQueueAttempts = 3 ∧
    ttsQueueBackoffBaseDelayMs = 1000 ∧
    (k < 3 →
      (deliver s jd (Except.error msg) k).2
        = QueueVerdict.retryAfter (1000 * 2 ^ (k - 1)) ∧
      (deliver s jd (Except.error msg) k).1.tasks.find? (byId jd.taskId)
        = some { t0 with voice_name := some jd.voiceName, tts_model := some jd.provider, status := TaskStatus.PENDING, retry_count := t0.retry_count + 1, error_log := some ("第 " ++ toString (t0.retry_count + 1) ++ " 次失败: " ++ msg) }) ∧
    (k = 3 →
      (deliver s jd (Except.error msg) k).2 = QueueVerdict.terminalFailure ∧
      (deliver s jd (Except.error msg) k).1.tasks.find? (byId jd.taskId)
        = some { t0 with voice_name := some jd.voiceName, tts_model := some jd.provider, status := TaskStatus.FAILED, retry_count := t0.retry_count + 1, error_log := some ("最终失败: " ++ msg) }) := by
  have h1 : (updateTaskById s jd.taskId (fun t =>
      { t with voice_name := some jd.voiceName, tts_model := some jd.provider })).tasks.find?
        (byId jd.taskId)
      = some { t0 with voice_name := some jd.voiceName, tts_model := some jd.provider } := by
    rw [find?_updateTaskById s jd.taskId (fun t =>
      { t with voice_name := some jd.voiceName, tts_model := some jd.provider })
      (fun t => rfl), hfind]
    rfl
  have Hproc : process s jd (Except.error msg)
      = (updateTaskById (updateTaskById s jd.taskId (fun t =>
          { t with voice_name := some jd.voiceName, tts_model := some jd.provider }))
          jd.taskId (fun t =>
          { t with status := TaskStatus.PENDING, retry_count := t0.retry_count + 1, error_log := some ("第 " ++ toString (t0.retry_count + 1) ++ " 次失败: " ++ msg) }),
        Except.error (SvcError.plainError msg)) := by
    unfold process processCatch
    rw [hfind]
    dsimp only
    rw [h1]
  have h2 : (updateTaskById (updateTaskById s jd.taskId (fun t =>
        { t with voice_name := some jd.voiceName, tts_model := some jd.provider }))
        jd.taskId (fun t =>
        { t with status := TaskStatus.PENDING, retry_count := t0.retry_count + 1, error_log := some ("第 " ++ toString (t0.retry_count + 1) ++ " 次失败: " ++ msg) })).tasks.find?
        (byId jd.taskId)
      = some { t0 with voice_name := some jd.voiceName, tts_model := some jd.provider, status := TaskStatus.PENDING, retry_count := t0.retry_count + 1, error_log := some ("第 " ++ toString (t0.retry_count + 1) ++ " 次失败: " ++ msg) } := by
    rw [find?_updateTaskById (updateTaskById s jd.taskId (fun t =>
        { t with voice_name := some jd.voiceName, tts_model := some jd.provider }))
        jd.taskId (fun t =>
        { t with status := TaskStatus.PENDING, retry_count := t0.retry_count + 1, error_log := some ("第 " ++ toString (t0.retry_count + 1) ++ " 次失败: " ++ msg) })
        (fun t => rfl),
      find?_updateTaskById s jd.taskId (fun t =>
        { t with voice_name := some jd.voiceName, tts_model := some jd.provider })
        (fun t => rfl), hfind]
    rfl
  refine ⟨rfl, rfl, ?_, ?_⟩
  · intro hk
    have Hdel : deliver s jd (Except.error msg) k
        = (updateTaskById (updateTaskById s jd.taskId (fun t =>
            { t with voice_name := some jd.voiceName, tts_model := some jd.provider }))
            jd.taskId (fun t =>
            { t with status := TaskStatus.PENDING, retry_count := t0.retry_count + 1, error_log := some ("第 " ++ toString (t0.retry_count + 1) ++ " 次失败: " ++ msg) }),
          QueueVerdict.retryAfter (backoffDelayMs k)) := by
      unfold deliver
      rw [Hproc]
      dsimp only
      rw [if_pos (show k < ttsQueueAttempts from hk)]
    rw [Hdel]
    exact ⟨rfl, h2⟩
  · intro hk
    subst hk
    have Hdel : deliver s jd (Except.error msg) 3
        = ((onFailed (updateTaskById (updateTaskById s jd.taskId (fun t =>
            { t with voice_name := some jd.voiceName, tts_model := some jd.provider }))
            jd.taskId (fun t =>
            { t with status := TaskStatus.PENDING, retry_count := t0.retry_count + 1, error_log := some ("第 " ++ toString (t0.retry_count + 1) ++ " 次失败: " ++ msg) }))
            jd msg).1,
          QueueVerdict.terminalFailure) := by
      unfold deliver
      rw [Hproc]
      dsimp only
      rw [if_neg (by decide : ¬((3 : Nat) < ttsQueueAttempts))]
    have Hof : onFailed (updateTaskById (updateTaskById s jd.taskId (fun t =>
          { t with voice_name := some jd.voiceName, tts_model := some jd.provider }))
          jd.taskId (fun t =>
          { t with status := TaskStatus.PENDING, retry_count := t0.retry_count + 1, error_log := some ("第 " ++ toString (t0.retry_count + 1) ++ " 次失败: " ++ msg) }))
          jd msg
        = checkSchemeTasks (updateTaskById (updateTaskById (updateTaskById s
            jd.taskId (fun t =>
            { t with voice_name := some jd.voiceName, tts_model := some jd.provider }))
            jd.taskId (fun t =>
            { t with status := TaskStatus.PENDING, retry_count := t0.retry_count + 1, error_log := some ("第 " ++ toString (t0.retry_count + 1) ++ " 次失败: " ++ msg) }))
            jd.taskId (fun t =>
            { t with status := TaskStatus.FAILED, error_log := some ("最终失败: " ++ msg) }))
            jd.schemeId := by
      unfold onFailed
      rw [h2]
    rw [Hdel, Hof]
    refine ⟨rfl, ?_⟩
    rw [checkSchemeTasks_tasks,
      find?_updateTaskById (updateTaskById (updateTaskById s jd.taskId (fun t =>
        { t with voice_name := some jd.voiceName, tts_model := some jd.provider }))
        jd.taskId (fun t =>
        { t with status := TaskStatus.PENDING, retry_count := t0.retry_count + 1, error_log := some ("第 " ++ toString (t0.retry_count + 1) ++ " 次失败: " ++ msg) }))
        jd.taskId (fun t =>
        { t with status := TaskStatus.FAILED, error_log := some ("最终失败: " ++ msg) })
        (fun t => rfl), h2]
    rfl

/-- Witness for C9: a failing generation for the job of `succTask` —
first delivery (redelivered after 1000 ms with the task still PENDING,
`retry_count` 1) and third delivery (terminal: task FAILED with the
final-failure log). -/
theorem deliver_failure_policy_witness :
    ttsQueueAttempts = 3 ∧
    ttsQueueBackoffBaseDelayMs = 1000 ∧
    ((deliver stateSucc jobSucc (Except.error "boom") 1).2
        = QueueVerdict.retryAfter 1000 ∧
      (deliver stateSucc jobSucc (Except.error "boom") 1).1.tasks.find?
          (byId 3)
        = some { succTask with voice_name := some "v2", tts_model := some "p2", status := TaskStatus.PENDING, retry_count := 1, error_log := some "第 1 次失败: boom" }) ∧
    ((deliver stateSucc jobSucc (Except.error "boom") 3).2
        = QueueVerdict.terminalFailure ∧
      (deliver stateSucc jobSucc (Except.error "boom") 3).1.tasks.find?
          (byId 3)
        = some { succTask with voice_name := some "v2", tts_model := some "p2", status := TaskStatus.FAILED, retry_count := 1, error_log := some "最终失败: boom" }) :=
  ⟨rfl, rfl,
   (deliver_failure_policy stateSucc jobSucc "boom" 1 succTask rfl).2.2.1
     (by decide),
   (deliver_failure_policy stateSucc jobSucc "boom" 3 succTask rfl).2.2.2 rfl⟩

end Tts
